import Mathlib

/-!
Verification development for the EX-Installer repository.

This file gives a shallow embedding of the two algorithmic cores of the
repository and proves properties about them:

* `EXTurntable` — the parameter-validation / directive-emission pipeline of
  `ex_installer/ex_turntable.py` (`generate_config`, lines 762-936) together
  with the version gate (`set_product_version`, lines 74-119).
* `EXInstaller` — the navigation state machine of
  `ex_installer/ex_installer.py` (`switch_view`, lines 112-177).

Widget toggles with a fixed two-valued `onvalue`/`offvalue` are embedded as
`Bool` together with a rendering function that produces the exact string the
widget's `.get()` returns.  A widget `state` (`"normal"`/`"disabled"`) is the
two-valued type `WState`.  Python exceptions escaping a function are embedded
as `Option`/`Except` results (`none`/`.error` = the call raised).
-/

set_option maxRecDepth 4000

/-- Model of Python `int(s)` restricted to the string shapes the installer
handles: optional surrounding ASCII whitespace, an optional sign, then one or
more ASCII decimal digits.  `none` models `int` raising `ValueError`.
(Python additionally accepts underscore digit grouping and non-ASCII digits;
those inputs are not used by any claim.) -/
def pyInt (s : String) : Option Int :=
  let t := ((s.data.dropWhile Char.isWhitespace).reverse.dropWhile Char.isWhitespace).reverse
  let digitsVal : List Char → Option Nat := fun l =>
    if l ≠ [] ∧ l.all Char.isDigit then
      some (l.foldl (fun a c => a * 10 + (c.toNat - 48)) 0)
    else none
  match t with
  | [] => none
  | '-' :: rest => (digitsVal rest).map (fun n => -(n : Int))
  | '+' :: rest => (digitsVal rest).map (fun n => (n : Int))
  | l => (digitsVal l).map (fun n => (n : Int))

/-- Widget `state` attribute: `cget("state")` is `"normal"` or `"disabled"`. -/
inductive WState where
  | normal
  | disabled
deriving DecidableEq, Repr

namespace EXTurntable

/-- State of the EX-Turntable configuration screen: one field per widget read
by `generate_config` or written by `set_product_version`.
Booleans stand for two-valued switches: `true` is the widget's `onvalue`
(`"TRAVERSER"`, `"HIGH"`, `"AUTO"` or `"on"` as the case may be), `false` the
`offvalue`.  Free-text entries are kept as raw strings, as `StringVar.get()`
returns them. -/
structure TState where
  i2c_address : String
  mode_switch : Bool          -- onvalue "TRAVERSER", offvalue "TURNTABLE"
  sensor_test_switch : Bool   -- onvalue "on"
  home_switch : Bool          -- onvalue "HIGH", offvalue "LOW"
  limit_switch : Bool         -- onvalue "HIGH", offvalue "LOW"
  relay_switch : Bool         -- onvalue "HIGH", offvalue "LOW"
  auto_switch : Bool          -- onvalue "AUTO", offvalue "MANUAL"
  phase_angle : String
  stepper_combo : String
  disable_idle_switch : Bool
  speed : String
  accel : String
  gearing : String
  gearing_state : WState
  invert_dir_switch : Bool
  invert_dir_state : WState
  invert_step_switch : Bool
  invert_step_state : WState
  invert_enable_switch : Bool
  invert_enable_state : WState
  forward_only_switch : Bool
  forward_only_state : WState
  reverse_only_switch : Bool
  reverse_only_state : WState
  led_fast_switch : Bool
  led_fast : String
  led_slow_switch : Bool
  led_slow : String
  debug_switch : Bool
  sanity_steps_switch : Bool
  sanity_steps : String
  home_sensitivity_switch : Bool
  home_sensitivity : String
  full_step_count_switch : Bool
  full_step_count : String
  debounce_delay_switch : Bool
  debounce_delay : String
  product_version_name : Option String
  product_major_version : Option Int
  product_minor_version : Option Int
  product_patch_version : Option Int
  app_version : String
  product_name : String
deriving DecidableEq, Repr

/-- Rendering of `self.mode_switch.get()`. -/
def modeGet (st : TState) : String := if st.mode_switch then "TRAVERSER" else "TURNTABLE"

/-- Rendering of `self.home_switch.get()`. -/
def homeGet (st : TState) : String := if st.home_switch then "HIGH" else "LOW"

/-- Rendering of `self.limit_switch.get()`. -/
def limitGet (st : TState) : String := if st.limit_switch then "HIGH" else "LOW"

/-- Rendering of `self.relay_switch.get()`. -/
def relayGet (st : TState) : String := if st.relay_switch then "HIGH" else "LOW"

/-- Rendering of `self.auto_switch.get()`. -/
def autoGet (st : TState) : String := if st.auto_switch then "AUTO" else "MANUAL"

/-- Errors appended for the I2C address (ex_turntable.py lines 770-771).
The surrounding `int()` coercion is unguarded in the source; `generate_config`
below therefore takes the already-coerced value. -/
def errI2c (i2c : Int) : List String :=
  if i2c < 8 ∨ i2c > 77 then ["I²C address must be between 0x8 and 0x77"] else []

/-- Errors appended for the phase switch angle (lines 784-791). -/
def errPhase (st : TState) : List String :=
  if st.auto_switch then
    match pyInt st.phase_angle with
    | none => ["Phase switch angle must be between 0 and 180"]
    | some v => if v < 0 ∨ v > 180 then ["Phase switch angle must be between 0 and 180"] else []
  else []

/-- Errors appended for the stepper driver selection (lines 795-796). -/
def errStepper (st : TState) : List String :=
  if st.stepper_combo = "Select stepper driver" then ["You must select a stepper driver"] else []

/-- Errors appended for the stepper speed (lines 801-807). -/
def errSpeed (st : TState) : List String :=
  match pyInt st.speed with
  | none => ["You must provide a numeric speed value"]
  | some v => if v < 10 ∨ v > 20000 then ["Speed must be between 10 and 20000"] else []

/-- Errors appended for the acceleration (lines 810-816). -/
def errAccel (st : TState) : List String :=
  match pyInt st.accel with
  | none => ["You must provide a numeric acceleration value"]
  | some v => if v < 1 ∨ v > 1000 then ["Acceleration must be between 1 and 1000"] else []

/-- Errors appended for the gearing factor (lines 819-826); skipped entirely
when the entry widget is disabled by the version gate. -/
def errGearing (st : TState) : List String :=
  if st.gearing_state = WState.normal then
    match pyInt st.gearing with
    | none => ["You must provide a numeric gearing factor"]
    | some v => if v < 1 ∨ v > 10 then ["Gearing factor must be between 1 and 10"] else []
  else []

/-- Cross-field error for forward-only rotation in traverser mode
(lines 844-847). -/
def errForward (st : TState) : List String :=
  if st.forward_only_state = WState.normal then
    if st.forward_only_switch then
      if st.mode_switch then ["Traverser mode is incompatible with forward only rotation"] else []
    else []
  else []

/-- Cross-field error for reverse-only rotation in traverser mode
(lines 852-855). -/
def errReverse (st : TState) : List String :=
  if st.reverse_only_state = WState.normal then
    if st.reverse_only_switch then
      if st.mode_switch then ["Traverser mode is incompatible with reverse only rotation"] else []
    else []
  else []

/-- Error appended for a non-numeric fast LED delay (lines 860-864). -/
def errLedFast (st : TState) : List String :=
  if st.led_fast_switch then
    match pyInt st.led_fast with
    | none => ["Fast LED delay must be numeric"]
    | some _ => []
  else []

/-- Error appended for a non-numeric slow LED delay (lines 869-873). -/
def errLedSlow (st : TState) : List String :=
  if st.led_slow_switch then
    match pyInt st.led_slow with
    | none => ["Slow LED delay must be numeric"]
    | some _ => []
  else []

/-- Error appended for a non-numeric sanity step count (lines 882-886). -/
def errSanity (st : TState) : List String :=
  if st.sanity_steps_switch then
    match pyInt st.sanity_steps with
    | none => ["Sanity step count must be numeric"]
    | some _ => []
  else []

/-- Error appended for a non-numeric homing sensitivity (lines 891-895). -/
def errHomeSens (st : TState) : List String :=
  if st.home_sensitivity_switch then
    match pyInt st.home_sensitivity with
    | none => ["Home sensitivity step count must be numeric"]
    | some _ => []
  else []

/-- Error appended for a non-numeric full step count (lines 900-904). -/
def errFullStep (st : TState) : List String :=
  if st.full_step_count_switch then
    match pyInt st.full_step_count with
    | none => ["Full step count must be numeric"]
    | some _ => []
  else []

/-- Error appended for a non-numeric debounce delay (lines 909-913). -/
def errDebounce (st : TState) : List String :=
  if st.debounce_delay_switch then
    match pyInt st.debounce_delay with
    | none => ["Debounce delay must be numeric"]
    | some _ => []
  else []

/-- Complete `param_errors` list built by one `generate_config` run, in the
order the source appends them (lines 768-917). -/
def errorsOf (st : TState) (i2c : Int) : List String :=
  errI2c i2c ++ errPhase st ++ errStepper st ++ errSpeed st ++ errAccel st ++
  errGearing st ++ errForward st ++ errReverse st ++ errLedFast st ++
  errLedSlow st ++ errSanity st ++ errHomeSens st ++ errFullStep st ++
  errDebounce st

/-- Config lines for the I2C address (lines 770-774). -/
def cfgI2c (st : TState) (i2c : Int) : List String :=
  if i2c < 8 ∨ i2c > 77 then [] else ["#define I2C_ADDRESS 0x" ++ st.i2c_address ++ "\n"]

/-- Config line for the mode (line 775). -/
def cfgMode (st : TState) : List String :=
  ["#define TURNTABLE_EX_MODE " ++ modeGet st ++ "\n"]

/-- Config line for sensor testing (lines 776-779). -/
def cfgSensorTest (st : TState) : List String :=
  if st.sensor_test_switch then ["#define SENSOR_TESTING\n"] else ["// #define SENSOR_TESTING\n"]

/-- Config line for the home sensor (line 780). -/
def cfgHome (st : TState) : List String :=
  ["#define HOME_SENSOR_ACTIVE_STATE " ++ homeGet st ++ "\n"]

/-- Config line for the limit sensor (line 781). -/
def cfgLimit (st : TState) : List String :=
  ["#define LIMIT_SENSOR_ACTIVE_STATE " ++ limitGet st ++ "\n"]

/-- Config line for the relay (line 782). -/
def cfgRelay (st : TState) : List String :=
  ["#define RELAY_ACTIVE_STATE " ++ relayGet st ++ "\n"]

/-- Config line for phase switching (line 783). -/
def cfgPhaseSwitching (st : TState) : List String :=
  ["#define PHASE_SWITCHING " ++ autoGet st ++ "\n"]

/-- Config line for the phase switch angle (lines 784-794). -/
def cfgPhaseAngle (st : TState) : List String :=
  if st.auto_switch then
    match pyInt st.phase_angle with
    | none => []
    | some v =>
      if v < 0 ∨ v > 180 then [] else ["#define PHASE_SWITCH_ANGLE " ++ st.phase_angle ++ "\n"]
  else []

/-- Config line for the stepper driver (lines 795-798). -/
def cfgStepper (st : TState) : List String :=
  if st.stepper_combo = "Select stepper driver" then []
  else ["#define STEPPER_DRIVER " ++ st.stepper_combo ++ "\n"]

/-- Config line for disable-outputs-idle (lines 799-800). -/
def cfgIdle (st : TState) : List String :=
  if st.disable_idle_switch then ["#define DISABLE_OUTPUTS_IDLE\n"] else []

/-- Config line for the stepper speed (lines 801-809). -/
def cfgSpeed (st : TState) : List String :=
  match pyInt st.speed with
  | none => []
  | some v => if v < 10 ∨ v > 20000 then [] else ["#define STEPPER_MAX_SPEED " ++ st.speed ++ "\n"]

/-- Config line for the acceleration (lines 810-818). -/
def cfgAccel (st : TState) : List String :=
  match pyInt st.accel with
  | none => []
  | some v => if v < 1 ∨ v > 1000 then [] else ["#define STEPPER_ACCELERATION " ++ st.accel ++ "\n"]

/-- Config line for the gearing factor (lines 819-828): nothing at all is
emitted when the entry widget is disabled. -/
def cfgGearing (st : TState) : List String :=
  if st.gearing_state = WState.normal then
    match pyInt st.gearing with
    | none => []
    | some v =>
      if v < 1 ∨ v > 10 then [] else ["#define STEPPER_GEARING_FACTOR " ++ st.gearing ++ "\n"]
  else []

/-- Config line for the invert-direction switch (lines 829-833). -/
def cfgInvertDir (st : TState) : List String :=
  if st.invert_dir_state = WState.normal then
    [if st.invert_dir_switch then "#define INVERT_DIRECTION\n" else "// #define INVERT_DIRECTION\n"]
  else []

/-- Config line for the invert-step switch (lines 834-838). -/
def cfgInvertStep (st : TState) : List String :=
  if st.invert_step_state = WState.normal then
    [if st.invert_step_switch then "#define INVERT_STEP\n" else "// #define INVERT_STEP\n"]
  else []

/-- Config line for the invert-enable switch (lines 839-843). -/
def cfgInvertEnable (st : TState) : List String :=
  if st.invert_enable_state = WState.normal then
    [if st.invert_enable_switch then "#define INVERT_ENABLE\n" else "// #define INVERT_ENABLE\n"]
  else []

/-- Config line for forward-only rotation (lines 844-851). -/
def cfgForward (st : TState) : List String :=
  if st.forward_only_state = WState.normal then
    if st.forward_only_switch then
      if st.mode_switch then [] else ["#define ROTATE_FORWARD_ONLY\n"]
    else ["// #define ROTATE_FORWARD_ONLY\n"]
  else []

/-- Config line for reverse-only rotation (lines 852-859). -/
def cfgReverse (st : TState) : List String :=
  if st.reverse_only_state = WState.normal then
    if st.reverse_only_switch then
      if st.mode_switch then [] else ["#define ROTATE_REVERSE_ONLY\n"]
    else ["// #define ROTATE_REVERSE_ONLY\n"]
  else []

/-- Config line for the fast LED delay (lines 860-868). -/
def cfgLedFast (st : TState) : List String :=
  if st.led_fast_switch then
    match pyInt st.led_fast with
    | none => []
    | some _ => ["#define LED_FAST " ++ st.led_fast ++ "\n"]
  else ["#define LED_FAST 100\n"]

/-- Config line for the slow LED delay (lines 869-877). -/
def cfgLedSlow (st : TState) : List String :=
  if st.led_slow_switch then
    match pyInt st.led_slow with
    | none => []
    | some _ => ["#define LED_SLOW " ++ st.led_slow ++ "\n"]
  else ["#define LED_SLOW 500\n"]

/-- Config line for debug output (lines 878-881). -/
def cfgDebug (st : TState) : List String :=
  [if st.debug_switch then "#define DEBUG\n" else "// #define DEBUG\n"]

/-- Config line for the sanity step count (lines 882-890). -/
def cfgSanity (st : TState) : List String :=
  if st.sanity_steps_switch then
    match pyInt st.sanity_steps with
    | none => []
    | some _ => ["#define SANITY_STEPS " ++ st.sanity_steps ++ "\n"]
  else ["// #define SANITY_STEPS 10000\n"]

/-- Config line for the homing sensitivity (lines 891-899). -/
def cfgHomeSens (st : TState) : List String :=
  if st.home_sensitivity_switch then
    match pyInt st.home_sensitivity with
    | none => []
    | some _ => ["#define HOME_SENSITIVITY " ++ st.home_sensitivity ++ "\n"]
  else ["// #define HOME_SENSITIVITY 300\n"]

/-- Config line for the full step count (lines 900-908). -/
def cfgFullStep (st : TState) : List String :=
  if st.full_step_count_switch then
    match pyInt st.full_step_count with
    | none => []
    | some _ => ["#define FULL_STEP_COUNT " ++ st.full_step_count ++ "\n"]
  else ["// #define FULL_STEP_COUNT 4096\n"]

/-- Config line for the debounce delay (lines 909-917). -/
def cfgDebounce (st : TState) : List String :=
  if st.debounce_delay_switch then
    match pyInt st.debounce_delay with
    | none => []
    | some _ => ["#define DEBOUNCE_DELAY " ++ st.debounce_delay ++ "\n"]
  else ["// #define DEBOUNCE_DELAY 10\n"]

/-- Complete `config_list` built by one `generate_config` run, in source
append order (lines 768-917). -/
def configOf (st : TState) (i2c : Int) : List String :=
  cfgI2c st i2c ++ cfgMode st ++ cfgSensorTest st ++ cfgHome st ++ cfgLimit st ++
  cfgRelay st ++ cfgPhaseSwitching st ++ cfgPhaseAngle st ++ cfgStepper st ++
  cfgIdle st ++ cfgSpeed st ++ cfgAccel st ++ cfgGearing st ++ cfgInvertDir st ++
  cfgInvertStep st ++ cfgInvertEnable st ++ cfgForward st ++ cfgReverse st ++
  cfgLedFast st ++ cfgLedSlow st ++ cfgDebug st ++ cfgSanity st ++
  cfgHomeSens st ++ cfgFullStep st ++ cfgDebounce st

/-- Rendering of a possibly-absent Python value in an f-string
(`f"{None}"` is `"None"`). -/
def pyShow (o : Option String) : String :=
  match o with
  | some s => s
  | none => "None"

/-- Header comment prepended before the write (lines 923-925). -/
def configHeader (st : TState) : String :=
  "// config.h - Generated by EX-Installer v" ++ st.app_version ++ " for " ++
  st.product_name ++ " " ++ pyShow st.product_version_name ++ "\n\n"

/-- Result of one `generate_config` run: the collected error list, the
directive list, and the contents handed to the file writer (`none` when
validation failed and no write was attempted; the writer's own I/O failure is
an external concern). -/
structure GenResult where
  param_errors : List String
  config_list : List String
  written : Option (List String)
deriving DecidableEq, Repr

/-- Embedding of `EXTurntable.generate_config` (lines 762-936).
Returns `none` when the run raises: the only uncaught coercion is the I2C
address `int()` on line 770.  When `param_errors` is non-empty the joined
message is displayed and nothing is written; otherwise the header plus the
directives are handed to the writer. -/
def generate_config (st : TState) : Option GenResult :=
  match pyInt st.i2c_address with
  | none => none
  | some i2c =>
    let errs := errorsOf st i2c
    let cfg := configOf st i2c
    some { param_errors := errs
           config_list := cfg
           written := if errs.length > 0 then none else some (configHeader st :: cfg) }

/-- Embedding of `EXTurntable.set_product_version` (lines 74-119).
`none` models the call raising: when a stored version number is `None`,
Python's `self.product_minor_version < 6` comparison raises `TypeError`
(reached only when `self.product_major_version == 0` is true, as `and`
short-circuits and `None == 0` is `False`).  The `get_steppers` call only
reads the stepper definition file and configures the combo box; it touches no
field modelled here. -/
def set_product_version (st : TState) (version : Option String)
    (major minor patch : Option Int) : Option TState :=
  let st1 := { st with product_version_name := version }
  let st2 :=
    match major with
    | none => st1
    | some mj =>
      let a := { st1 with product_major_version := some mj }
      match minor with
      | none => a
      | some mn =>
        let b := { a with product_minor_version := some mn }
        match patch with
        | none => b
        | some pt => { b with product_patch_version := some pt }
  let g1 : Option TState :=
    if st2.product_major_version = some (0 : Int) then
      match st2.product_minor_version with
      | none => none
      | some mn =>
        if mn < 6 then some { st2 with gearing_state := WState.disabled, gearing := "1" }
        else some { st2 with gearing_state := WState.normal }
    else some { st2 with gearing_state := WState.normal }
  match g1 with
  | none => none
  | some st3 =>
    if st3.product_major_version = some (0 : Int) then
      match st3.product_minor_version with
      | none => none
      | some mn =>
        if mn < 7 then
          some { st3 with
                 invert_dir_switch := false, invert_dir_state := WState.disabled
                 invert_step_switch := false, invert_step_state := WState.disabled
                 invert_enable_switch := false, invert_enable_state := WState.disabled
                 forward_only_switch := false, forward_only_state := WState.disabled
                 reverse_only_switch := false, reverse_only_state := WState.disabled }
        else
          some { st3 with
                 invert_dir_state := WState.normal
                 invert_step_state := WState.normal
                 invert_enable_state := WState.normal
                 forward_only_state := WState.normal
                 reverse_only_state := WState.normal }
    else
      some { st3 with
             invert_dir_state := WState.normal
             invert_step_state := WState.normal
             invert_enable_state := WState.normal
             forward_only_state := WState.normal
             reverse_only_state := WState.normal }

end EXTurntable

namespace EXInstaller

/-- One cached view instance.  Identity of the underlying Python object is
modelled by `iid`, a number drawn from a construction counter: reconstructing
a view yields a fresh `iid`.  `product` is the value of the instance's
`product` attribute (`none` when the attribute is absent or `None`);
`version_name` records the version injected through `set_product_version`.
`has_version_hook` is the instance-level `hasattr(view, "set_product_version")`. -/
structure VFrame where
  iid : Nat
  product : Option String
  version_name : Option String
  has_version_hook : Bool
deriving DecidableEq, Repr

/-- Static facts about one entry of the `self.views` registry
(ex_installer.py lines 74-82): the value of the constructed instance's
`product` attribute and whether the class defines `set_product_version`.
The classes of most registry entries are external collaborators
(their files are not part of the analysed sources); the flags follow the
`switch_view` docstring (lines 116-136): only `ex_commandstation` gets
version info (so only it exposes the hook), and `compile_upload` /
`select_version_config` require a product parameter. -/
structure ViewEntry where
  initProduct : Option String
  has_version_hook : Bool
deriving DecidableEq, Repr

/-- Registry of views, `self.views` (lines 74-82). -/
def views : List (String × ViewEntry) :=
  [("welcome", ⟨none, false⟩),
   ("manage_arduino_cli", ⟨none, false⟩),
   ("select_device", ⟨none, false⟩),
   ("select_product", ⟨none, false⟩),
   ("select_version_config", ⟨none, false⟩),
   ("ex_commandstation", ⟨some "ex_commandstation", true⟩),
   ("compile_upload", ⟨none, false⟩)]

/-- Dictionary lookup `self.views[view_class]`; `none` models `KeyError`. -/
def viewsLookup (id : String) : Option ViewEntry :=
  (views.find? (fun e => e.fst = id)).map (fun e => e.snd)

/-- Lookup in the instance cache `self.frames`. -/
def getFrame (fs : List (String × VFrame)) (id : String) : Option VFrame :=
  (fs.find? (fun e => e.fst = id)).map (fun e => e.snd)

/-- Update of the instance cache `self.frames[view_class] = view`. -/
def setFrame (fs : List (String × VFrame)) (id : String) (f : VFrame) :
    List (String × VFrame) :=
  match fs with
  | [] => [(id, f)]
  | e :: rest => if e.fst = id then (id, f) :: rest else e :: setFrame rest id f

/-- Root-window state: the instance cache, the active view (`self.view`) and
the construction counter that mints instance identities. -/
structure AppState where
  frames : List (String × VFrame)
  view : Option VFrame
  nextId : Nat
deriving DecidableEq, Repr

/-- State of the root window right after `__init__` built `self.frames = {}`
and `self.view = None` (before the initial `switch_view("welcome")`). -/
def initialState : AppState := { frames := [], view := none, nextId := 0 }

/-- Exceptions escaping `switch_view`, reaching the Tk callback exception
handler (`exception_handler`, lines 87-110): `unknownView` models the
`KeyError` from `self.views[view_class]` (line 169), and
`unboundVersionDetails` the `UnboundLocalError` from reading
`version_details` when no version was supplied (lines 140-141 assign it only
under `if version:`, lines 158 and 174 read it unconditionally). -/
inductive NavError where
  | unknownView (id : String)
  | unboundVersionDetails
deriving DecidableEq, Repr

/-- The `calling_product` computed at lines 142-145: the `product` attribute
of the previously active view, `none` when there is no previous view or the
attribute is absent. -/
def callingProduct (st : AppState) : Option String :=
  match st.view with
  | some f => f.product
  | none => none

/-- Embedding of `EXInstaller.switch_view` (lines 112-177).  `.error e`
models the run raising `e` (resulting window state after a raise is not
modelled; for `unknownView` the raise happens before any mutation).
Branches, in source order:
* falsy `view_class` skips the whole body (line 139);
* a cached view is destroyed and reconstructed when it is `compile_upload`,
  or `select_version_config` with a product different from the calling
  product (lines 147-161); otherwise the cached instance is reused,
  re-injecting product (for `select_version_config`) and version when
  supplied, and raised to the foreground (lines 162-167);
* an uncached view is constructed fresh from the registry (lines 168-176),
  raising `KeyError` when the id is not a registry key. -/
def switch_view (st : AppState) (view_class : String)
    (product : Option String) (version : Option String) :
    Except NavError AppState :=
  if view_class = "" then .ok st
  else
    let calling_product := callingProduct st
    match getFrame st.frames view_class with
    | some f =>
      if view_class = "compile_upload" ∨
         (view_class = "select_version_config" ∧ product ≠ calling_product) then
        match viewsLookup view_class with
        | none => .error (.unknownView view_class)
        | some entry =>
          let f1 : VFrame :=
            { iid := st.nextId, product := entry.initProduct, version_name := none,
              has_version_hook := entry.has_version_hook }
          let f2 := { f1 with product := product }
          if f2.has_version_hook then
            match version with
            | none => .error .unboundVersionDetails
            | some v =>
              let f3 := { f2 with version_name := some v }
              .ok { frames := setFrame st.frames view_class f3, view := some f3,
                    nextId := st.nextId + 1 }
          else
            .ok { frames := setFrame st.frames view_class f2, view := some f2,
                  nextId := st.nextId + 1 }
      else
        let f1 := if view_class = "select_version_config" then { f with product := product } else f
        let f2 := if version ≠ none ∧ f1.has_version_hook = true then
                    { f1 with version_name := version }
                  else f1
        .ok { frames := setFrame st.frames view_class f2, view := some f2,
              nextId := st.nextId }
    | none =>
      match viewsLookup view_class with
      | none => .error (.unknownView view_class)
      | some entry =>
        let f1 : VFrame :=
          { iid := st.nextId, product := entry.initProduct, version_name := none,
            has_version_hook := entry.has_version_hook }
        let f2 := if view_class = "compile_upload" ∨ view_class = "select_version_config" then
                    { f1 with product := product }
                  else f1
        if f2.has_version_hook then
          match version with
          | none => .error .unboundVersionDetails
          | some v =>
            let f3 := { f2 with version_name := some v }
            .ok { frames := setFrame st.frames view_class f3, view := some f3,
                  nextId := st.nextId + 1 }
        else
          .ok { frames := setFrame st.frames view_class f2, view := some f2,
                nextId := st.nextId + 1 }

end EXInstaller

/-- Statement that line `l` begins with the characters of `p`. -/
def strLeads (p l : String) : Prop := l.data.take p.data.length = p.data

instance (p l : String) : Decidable (strLeads p l) :=
  inferInstanceAs (Decidable (l.data.take p.data.length = p.data))

/-- Statement that line `l` begins with none of the strings in `ps`. -/
def noLeads (ps : List String) (l : String) : Prop := ∀ p ∈ ps, ¬ strLeads p l

instance (ps : List String) (l : String) : Decidable (noLeads ps l) :=
  List.decidableBAll _ ps

namespace EXTurntable

/-- Both spellings (active and commented-out) with which a gearing factor
directive would have to begin. -/
def gearingHeads : List String :=
  ["#define STEPPER_GEARING_FACTOR", "// #define STEPPER_GEARING_FACTOR"]

/-- Both spellings with which an invert-direction directive would begin. -/
def invertDirHeads : List String :=
  ["#define INVERT_DIRECTION", "// #define INVERT_DIRECTION"]

/-- Both spellings with which an invert-step directive would begin. -/
def invertStepHeads : List String :=
  ["#define INVERT_STEP", "// #define INVERT_STEP"]

/-- Both spellings with which an invert-enable directive would begin. -/
def invertEnableHeads : List String :=
  ["#define INVERT_ENABLE", "// #define INVERT_ENABLE"]

/-- Both spellings with which a forward-only directive would begin. -/
def forwardHeads : List String :=
  ["#define ROTATE_FORWARD_ONLY", "// #define ROTATE_FORWARD_ONLY"]

/-- Both spellings with which a reverse-only directive would begin. -/
def reverseHeads : List String :=
  ["#define ROTATE_REVERSE_ONLY", "// #define ROTATE_REVERSE_ONLY"]

/-- All directive spellings belonging to the six version-gated parameters. -/
def gatedHeads : List String :=
  gearingHeads ++ invertDirHeads ++ invertStepHeads ++ invertEnableHeads ++
  forwardHeads ++ reverseHeads

/-- Heads of every INVERT_* or ROTATE_* directive, active or commented. -/
def invRotHeads : List String :=
  ["#define INVERT", "// #define INVERT", "#define ROTATE", "// #define ROTATE"]

/-- Statement that the I2C address check of lines 770-771 fails (counting an
unparsable value, which makes the run raise, as invalid). -/
def i2cInvalid (st : TState) : Bool :=
  match pyInt st.i2c_address with
  | none => true
  | some v => decide (v < 8 ∨ v > 77)

/-- Statement that the phase-angle check of lines 784-791 fails. -/
def phaseInvalid (st : TState) : Bool :=
  st.auto_switch &&
    (match pyInt st.phase_angle with
     | none => true
     | some v => decide (v < 0 ∨ v > 180))

/-- Statement that no stepper driver was selected (lines 795-796). -/
def stepperInvalid (st : TState) : Bool :=
  decide (st.stepper_combo = "Select stepper driver")

/-- Statement that the speed check of lines 801-807 fails. -/
def speedInvalid (st : TState) : Bool :=
  match pyInt st.speed with
  | none => true
  | some v => decide (v < 10 ∨ v > 20000)

/-- Statement that the acceleration check of lines 810-816 fails. -/
def accelInvalid (st : TState) : Bool :=
  match pyInt st.accel with
  | none => true
  | some v => decide (v < 1 ∨ v > 1000)

/-- Statement that the gearing check of lines 819-826 fails. -/
def gearingInvalid (st : TState) : Bool :=
  decide (st.gearing_state = WState.normal) &&
    (match pyInt st.gearing with
     | none => true
     | some v => decide (v < 1 ∨ v > 10))

/-- Statement that the forward-only cross-field rule of lines 844-847 fires. -/
def forwardInvalid (st : TState) : Bool :=
  decide (st.forward_only_state = WState.normal) && st.forward_only_switch && st.mode_switch

/-- Statement that the reverse-only cross-field rule of lines 852-855 fires. -/
def reverseInvalid (st : TState) : Bool :=
  decide (st.reverse_only_state = WState.normal) && st.reverse_only_switch && st.mode_switch

/-- Statement that the fast-LED check of lines 860-864 fails. -/
def ledFastInvalid (st : TState) : Bool :=
  st.led_fast_switch && (pyInt st.led_fast).isNone

/-- Statement that the slow-LED check of lines 869-873 fails. -/
def ledSlowInvalid (st : TState) : Bool :=
  st.led_slow_switch && (pyInt st.led_slow).isNone

/-- Statement that the sanity-steps check of lines 882-886 fails. -/
def sanityInvalid (st : TState) : Bool :=
  st.sanity_steps_switch && (pyInt st.sanity_steps).isNone

/-- Statement that the homing-sensitivity check of lines 891-895 fails. -/
def homeSensInvalid (st : TState) : Bool :=
  st.home_sensitivity_switch && (pyInt st.home_sensitivity).isNone

/-- Statement that the full-step-count check of lines 900-904 fails. -/
def fullStepInvalid (st : TState) : Bool :=
  st.full_step_count_switch && (pyInt st.full_step_count).isNone

/-- Statement that the debounce-delay check of lines 909-913 fails. -/
def debounceInvalid (st : TState) : Bool :=
  st.debounce_delay_switch && (pyInt st.debounce_delay).isNone

/-- Number of independently failing parameter checks of one
`generate_config` pass, one summand per check site, in source order. -/
def invalidCount (st : TState) : Nat :=
  (i2cInvalid st).toNat + (phaseInvalid st).toNat + (stepperInvalid st).toNat +
  (speedInvalid st).toNat + (accelInvalid st).toNat + (gearingInvalid st).toNat +
  (forwardInvalid st).toNat + (reverseInvalid st).toNat + (ledFastInvalid st).toNat +
  (ledSlowInvalid st).toNat + (sanityInvalid st).toNat + (homeSensInvalid st).toNat +
  (fullStepInvalid st).toNat + (debounceInvalid st).toNat

/-- Fixture: a configuration screen state on which every validation check
passes (used as the base of the concrete scenarios). -/
def validBase : TState :=
  { i2c_address := "60"
    mode_switch := false
    sensor_test_switch := false
    home_switch := false
    limit_switch := false
    relay_switch := false
    auto_switch := true
    phase_angle := "45"
    stepper_combo := "AF_A4988"
    disable_idle_switch := true
    speed := "200"
    accel := "25"
    gearing := "1"
    gearing_state := WState.normal
    invert_dir_switch := false
    invert_dir_state := WState.normal
    invert_step_switch := false
    invert_step_state := WState.normal
    invert_enable_switch := false
    invert_enable_state := WState.normal
    forward_only_switch := false
    forward_only_state := WState.normal
    reverse_only_switch := false
    reverse_only_state := WState.normal
    led_fast_switch := false
    led_fast := "100"
    led_slow_switch := false
    led_slow := "500"
    debug_switch := false
    sanity_steps_switch := false
    sanity_steps := "10000"
    home_sensitivity_switch := false
    home_sensitivity := "300"
    full_step_count_switch := false
    full_step_count := "4096"
    debounce_delay_switch := false
    debounce_delay := "10"
    product_version_name := none
    product_major_version := none
    product_minor_version := none
    product_patch_version := none
    app_version := "0.0.17"
    product_name := "EX-Turntable" }

/-- Empty generation result, used as an `Option.getD` fallback only. -/
def emptyResult : GenResult := { param_errors := [], config_list := [], written := none }

/-- Fixture for C1: the screen state after `set_product_version` ran for
version v0.5.0-Prod (all six version-gated widgets disabled). -/
def c1St : TState :=
  (set_product_version validBase (some "v0.5.0-Prod") (some 0) (some 5) (some 0)).getD validBase

/-- Fixture for C1: the generation result at `c1St`. -/
def c1Res : GenResult := (generate_config c1St).getD emptyResult

/-- Fixture for C2's witness: a state with exactly two independently invalid
parameters (speed below 10, acceleration below 1). -/
def c2W : TState := { validBase with speed := "5", accel := "0" }

/-- Fixture for C2's witness: the generation result at `c2W`. -/
def c2WRes : GenResult := (generate_config c2W).getD emptyResult

/-- Fixture for C2's counterexample: a state whose only invalid parameter is
a non-numeric I2C address. -/
def c2Bad : TState := { validBase with i2c_address := "zz" }

/-- Fixture for C4: a state with a non-numeric I2C address. -/
def c4Bad : TState := { validBase with i2c_address := "abc" }

/-- Fixture for C5: the screen state after `set_product_version` ran for
version v0.6.1-Prod on the scenario parameters. -/
def c5St : TState :=
  (set_product_version validBase (some "v0.6.1-Prod") (some 0) (some 6) (some 1)).getD validBase

/-- Fixture for C5: the generation result at `c5St`. -/
def c5Res : GenResult := (generate_config c5St).getD emptyResult

/-- Fixture for C6: traverser mode with the forward-only switch selected and
its widget enabled. -/
def c6St : TState :=
  { validBase with mode_switch := true, forward_only_switch := true,
                   forward_only_state := WState.normal }

/-- Fixture for C6: the generation result at `c6St`. -/
def c6Res : GenResult := (generate_config c6St).getD emptyResult

/-- Fixture for C7: I2C address 5 with every other parameter valid. -/
def c7St : TState := { validBase with i2c_address := "5" }

/-- Fixture for C7: the generation result at `c7St`. -/
def c7Res : GenResult := (generate_config c7St).getD emptyResult

end EXTurntable

namespace EXInstaller

/-- Statement that every cached view id is a registry key — true initially
(the cache starts empty) and preserved by `switch_view`, since cache entries
are only created after a successful registry lookup. -/
def framesRegistered (st : AppState) : Prop :=
  ∀ id, (getFrame st.frames id).isSome = true → (viewsLookup id).isSome = true

/-- Frame updates the reuse branch of `switch_view` applies to a cached
instance (lines 162-166): re-inject the product for `select_version_config`,
re-inject the version when one is supplied and the instance has the
`set_product_version` hook.  The instance itself (its identity) is kept. -/
def reuseFrame (id : String) (f : VFrame) (product version : Option String) : VFrame :=
  let f1 := if id = "select_version_config" then { f with product := product } else f
  if version ≠ none ∧ f1.has_version_hook = true then { f1 with version_name := version } else f1

/-- Fixture for C3's counterexample: the window state after a first
`switch_view("compile_upload", "ex_commandstation")`, which constructs the
compile-upload view fresh with instance id 0. -/
def navCU1 : AppState :=
  (switch_view initialState "compile_upload" (some "ex_commandstation") none).toOption.getD
    initialState

/-- Fixture for C3's witness: the window state after the initial
`switch_view("welcome")`. -/
def navW : AppState :=
  (switch_view initialState "welcome" none none).toOption.getD initialState

/-- Fixture for C3's witness: the cached welcome view instance. -/
def welcomeFrame : VFrame :=
  (getFrame navW.frames "welcome").getD { iid := 0, product := none, version_name := none,
                                          has_version_hook := false }

end EXInstaller

theorem strLeads_take (p l : String) (n : Nat) (hn : n ≤ p.data.length)
    (h : strLeads p l) : l.data.take n = p.data.take n := by
  unfold strLeads at h
  have h2 := congrArg (List.take n) h
  rwa [List.take_take, Nat.min_eq_left hn] at h2

theorem noLeads_of_subset (ps qs : List String) (l : String)
    (hsub : ∀ p ∈ ps, p ∈ qs) (h : noLeads qs l) : noLeads ps l :=
  fun p hp => h p (hsub p hp)

theorem noLeads_of_head (ps : List String) (a b c : String)
    (ha : 17 ≤ a.data.length)
    (h : ∀ p ∈ ps, 17 ≤ p.data.length ∧ p.data.take 17 ≠ a.data.take 17) :
    noLeads ps (a ++ b ++ c) := by
  intro p hp hl
  obtain ⟨hlen, hne⟩ := h p hp
  have h17 : (a ++ b ++ c).data.take 17 = p.data.take 17 := strLeads_take p _ 17 hlen hl
  rw [String.data_append, String.data_append, List.append_assoc,
      List.take_append_of_le_length ha] at h17
  exact hne h17.symm

namespace EXTurntable

theorem cfgI2c_safe (st : TState) (i2c : Int) : ∀ l ∈ cfgI2c st i2c, noLeads gatedHeads l := by
  intro l hl
  unfold cfgI2c at hl
  split at hl
  · simp at hl
  · simp only [List.mem_singleton] at hl
    subst hl
    exact noLeads_of_head _ _ _ _ (by decide) (by decide)

theorem cfgMode_safe (st : TState) : ∀ l ∈ cfgMode st, noLeads gatedHeads l := by
  intro l hl
  simp only [cfgMode, List.mem_singleton] at hl
  subst hl
  exact noLeads_of_head _ _ _ _ (by decide) (by decide)

theorem cfgSensorTest_safe (st : TState) : ∀ l ∈ cfgSensorTest st, noLeads gatedHeads l := by
  intro l hl
  unfold cfgSensorTest at hl
  split at hl <;> simp only [List.mem_singleton] at hl <;> subst hl <;> decide

theorem cfgHome_safe (st : TState) : ∀ l ∈ cfgHome st, noLeads gatedHeads l := by
  intro l hl
  simp only [cfgHome, List.mem_singleton] at hl
  subst hl
  exact noLeads_of_head _ _ _ _ (by decide) (by decide)

theorem cfgLimit_safe (st : TState) : ∀ l ∈ cfgLimit st, noLeads gatedHeads l := by
  intro l hl
  simp only [cfgLimit, List.mem_singleton] at hl
  subst hl
  exact noLeads_of_head _ _ _ _ (by decide) (by decide)

theorem cfgRelay_safe (st : TState) : ∀ l ∈ cfgRelay st, noLeads gatedHeads l := by
  intro l hl
  simp only [cfgRelay, List.mem_singleton] at hl
  subst hl
  exact noLeads_of_head _ _ _ _ (by decide) (by decide)

theorem cfgPhaseSwitching_safe (st : TState) : ∀ l ∈ cfgPhaseSwitching st, noLeads gatedHeads l := by
  intro l hl
  simp only [cfgPhaseSwitching, List.mem_singleton] at hl
  subst hl
  exact noLeads_of_head _ _ _ _ (by decide) (by decide)

theorem cfgPhaseAngle_safe (st : TState) : ∀ l ∈ cfgPhaseAngle st, noLeads gatedHeads l := by
  intro l hl
  unfold cfgPhaseAngle at hl
  split at hl
  · split at hl
    · simp at hl
    · split at hl
      · simp at hl
      · simp only [List.mem_singleton] at hl
        subst hl
        exact noLeads_of_head _ _ _ _ (by decide) (by decide)
  · simp at hl

theorem cfgStepper_safe (st : TState) : ∀ l ∈ cfgStepper st, noLeads gatedHeads l := by
  intro l hl
  unfold cfgStepper at hl
  split at hl
  · simp at hl
  · simp only [List.mem_singleton] at hl
    subst hl
    exact noLeads_of_head _ _ _ _ (by decide) (by decide)

theorem cfgIdle_safe (st : TState) : ∀ l ∈ cfgIdle st, noLeads gatedHeads l := by
  intro l hl
  unfold cfgIdle at hl
  split at hl
  · simp only [List.mem_singleton] at hl
    subst hl
    decide
  · simp at hl

theorem cfgSpeed_safe (st : TState) : ∀ l ∈ cfgSpeed st, noLeads gatedHeads l := by
  intro l hl
  unfold cfgSpeed at hl
  split at hl
  · simp at hl
  · split at hl
    · simp at hl
    · simp only [List.mem_singleton] at hl
      subst hl
      exact noLeads_of_head _ _ _ _ (by decide) (by decide)

theorem cfgAccel_safe (st : TState) : ∀ l ∈ cfgAccel st, noLeads gatedHeads l := by
  intro l hl
  unfold cfgAccel at hl
  split at hl
  · simp at hl
  · split at hl
    · simp at hl
    · simp only [List.mem_singleton] at hl
      subst hl
      exact noLeads_of_head _ _ _ _ (by decide) (by decide)

theorem cfgLedFast_safe (st : TState) : ∀ l ∈ cfgLedFast st, noLeads gatedHeads l := by
  intro l hl
  unfold cfgLedFast at hl
  split at hl
  · split at hl
    · simp at hl
    · simp only [List.mem_singleton] at hl
      subst hl
      exact noLeads_of_head _ _ _ _ (by decide) (by decide)
  · simp only [List.mem_singleton] at hl
    subst hl
    decide

theorem cfgLedSlow_safe (st : TState) : ∀ l ∈ cfgLedSlow st, noLeads gatedHeads l := by
  intro l hl
  unfold cfgLedSlow at hl
  split at hl
  · split at hl
    · simp at hl
    · simp only [List.mem_singleton] at hl
      subst hl
      exact noLeads_of_head _ _ _ _ (by decide) (by decide)
  · simp only [List.mem_singleton] at hl
    subst hl
    decide

theorem cfgDebug_safe (st : TState) : ∀ l ∈ cfgDebug st, noLeads gatedHeads l := by
  intro l hl
  simp only [cfgDebug, List.mem_singleton] at hl
  subst hl
  split <;> decide

theorem cfgSanity_safe (st : TState) : ∀ l ∈ cfgSanity st, noLeads gatedHeads l := by
  intro l hl
  unfold cfgSanity at hl
  split at hl
  · split at hl
    · simp at hl
    · simp only [List.mem_singleton] at hl
      subst hl
      exact noLeads_of_head _ _ _ _ (by decide) (by decide)
  · simp only [List.mem_singleton] at hl
    subst hl
    decide

theorem cfgHomeSens_safe (st : TState) : ∀ l ∈ cfgHomeSens st, noLeads gatedHeads l := by
  intro l hl
  unfold cfgHomeSens at hl
  split at hl
  · split at hl
    · simp at hl
    · simp only [List.mem_singleton] at hl
      subst hl
      exact noLeads_of_head _ _ _ _ (by decide) (by decide)
  · simp only [List.mem_singleton] at hl
    subst hl
    decide

theorem cfgFullStep_safe (st : TState) : ∀ l ∈ cfgFullStep st, noLeads gatedHeads l := by
  intro l hl
  unfold cfgFullStep at hl
  split at hl
  · split at hl
    · simp at hl
    · simp only [List.mem_singleton] at hl
      subst hl
      exact noLeads_of_head _ _ _ _ (by decide) (by decide)
  · simp only [List.mem_singleton] at hl
    subst hl
    decide

theorem cfgDebounce_safe (st : TState) : ∀ l ∈ cfgDebounce st, noLeads gatedHeads l := by
  intro l hl
  unfold cfgDebounce at hl
  split at hl
  · split at hl
    · simp at hl
    · simp only [List.mem_singleton] at hl
      subst hl
      exact noLeads_of_head _ _ _ _ (by decide) (by decide)
  · simp only [List.mem_singleton] at hl
    subst hl
    decide

theorem cfgGearing_mem (st : TState) (l : String) (h : l ∈ cfgGearing st) :
    l = "#define STEPPER_GEARING_FACTOR " ++ st.gearing ++ "\n" := by
  unfold cfgGearing at h
  split at h
  · split at h
    · simp at h
    · split at h
      · simp at h
      · simpa using h
  · simp at h

theorem cfgInvertDir_mem (st : TState) (l : String) (h : l ∈ cfgInvertDir st) :
    l = "#define INVERT_DIRECTION\n" ∨ l = "// #define INVERT_DIRECTION\n" := by
  unfold cfgInvertDir at h
  split at h
  · simp only [List.mem_singleton] at h
    subst h
    split <;> simp
  · simp at h

theorem cfgInvertStep_mem (st : TState) (l : String) (h : l ∈ cfgInvertStep st) :
    l = "#define INVERT_STEP\n" ∨ l = "// #define INVERT_STEP\n" := by
  unfold cfgInvertStep at h
  split at h
  · simp only [List.mem_singleton] at h
    subst h
    split <;> simp
  · simp at h

theorem cfgInvertEnable_mem (st : TState) (l : String) (h : l ∈ cfgInvertEnable st) :
    l = "#define INVERT_ENABLE\n" ∨ l = "// #define INVERT_ENABLE\n" := by
  unfold cfgInvertEnable at h
  split at h
  · simp only [List.mem_singleton] at h
    subst h
    split <;> simp
  · simp at h

theorem cfgForward_mem (st : TState) (l : String) (h : l ∈ cfgForward st) :
    l = "#define ROTATE_FORWARD_ONLY\n" ∨ l = "// #define ROTATE_FORWARD_ONLY\n" := by
  unfold cfgForward at h
  split at h
  · split at h
    · split at h
      · simp at h
      · simp only [List.mem_singleton] at h
        exact Or.inl h
    · simp only [List.mem_singleton] at h
      exact Or.inr h
  · simp at h

theorem cfgReverse_mem (st : TState) (l : String) (h : l ∈ cfgReverse st) :
    l = "#define ROTATE_REVERSE_ONLY\n" ∨ l = "// #define ROTATE_REVERSE_ONLY\n" := by
  unfold cfgReverse at h
  split at h
  · split at h
    · split at h
      · simp at h
      · simp only [List.mem_singleton] at h
        exact Or.inl h
    · simp only [List.mem_singleton] at h
      exact Or.inr h
  · simp at h

theorem cfgGearing_nil (st : TState) (h : st.gearing_state = WState.disabled) :
    cfgGearing st = [] := by
  unfold cfgGearing
  rw [h]
  rfl

theorem cfgInvertDir_nil (st : TState) (h : st.invert_dir_state = WState.disabled) :
    cfgInvertDir st = [] := by
  unfold cfgInvertDir
  rw [h]
  rfl

theorem cfgInvertStep_nil (st : TState) (h : st.invert_step_state = WState.disabled) :
    cfgInvertStep st = [] := by
  unfold cfgInvertStep
  rw [h]
  rfl

theorem cfgInvertEnable_nil (st : TState) (h : st.invert_enable_state = WState.disabled) :
    cfgInvertEnable st = [] := by
  unfold cfgInvertEnable
  rw [h]
  rfl

theorem cfgForward_nil (st : TState) (h : st.forward_only_state = WState.disabled) :
    cfgForward st = [] := by
  unfold cfgForward
  rw [h]
  rfl

theorem cfgReverse_nil (st : TState) (h : st.reverse_only_state = WState.disabled) :
    cfgReverse st = [] := by
  unfold cfgReverse
  rw [h]
  rfl

theorem configOf_split (st : TState) (i2c : Int) :
    ∀ l ∈ configOf st i2c,
      noLeads gatedHeads l ∨ l ∈ cfgGearing st ∨ l ∈ cfgInvertDir st ∨
      l ∈ cfgInvertStep st ∨ l ∈ cfgInvertEnable st ∨ l ∈ cfgForward st ∨
      l ∈ cfgReverse st := by
  intro l hl
  unfold configOf at hl
  simp only [List.mem_append, or_assoc] at hl
  rcases hl with m01|m02|m03|m04|m05|m06|m07|m08|m09|m10|m11|m12|m13|m14|m15|m16|m17|m18|m19|m20|m21|m22|m23|m24|m25
  · exact Or.inl (cfgI2c_safe st i2c l m01)
  · exact Or.inl (cfgMode_safe st l m02)
  · exact Or.inl (cfgSensorTest_safe st l m03)
  · exact Or.inl (cfgHome_safe st l m04)
  · exact Or.inl (cfgLimit_safe st l m05)
  · exact Or.inl (cfgRelay_safe st l m06)
  · exact Or.inl (cfgPhaseSwitching_safe st l m07)
  · exact Or.inl (cfgPhaseAngle_safe st l m08)
  · exact Or.inl (cfgStepper_safe st l m09)
  · exact Or.inl (cfgIdle_safe st l m10)
  · exact Or.inl (cfgSpeed_safe st l m11)
  · exact Or.inl (cfgAccel_safe st l m12)
  · tauto
  · tauto
  · tauto
  · tauto
  · tauto
  · tauto
  · exact Or.inl (cfgLedFast_safe st l m19)
  · exact Or.inl (cfgLedSlow_safe st l m20)
  · exact Or.inl (cfgDebug_safe st l m21)
  · exact Or.inl (cfgSanity_safe st l m22)
  · exact Or.inl (cfgHomeSens_safe st l m23)
  · exact Or.inl (cfgFullStep_safe st l m24)
  · exact Or.inl (cfgDebounce_safe st l m25)

end EXTurntable

namespace EXTurntable

theorem no_gearing_lines (st : TState) (i2c : Int) (h : st.gearing_state = WState.disabled) :
    ∀ l ∈ configOf st i2c, noLeads gearingHeads l := by
  intro l hl
  rcases configOf_split st i2c l hl with hs | hg | hd | hsp | he | hf | hr
  · exact noLeads_of_subset _ _ _ (by decide) hs
  · rw [cfgGearing_nil st h] at hg
    simp at hg
  · rcases cfgInvertDir_mem st l hd with rfl | rfl <;> decide
  · rcases cfgInvertStep_mem st l hsp with rfl | rfl <;> decide
  · rcases cfgInvertEnable_mem st l he with rfl | rfl <;> decide
  · rcases cfgForward_mem st l hf with rfl | rfl <;> decide
  · rcases cfgReverse_mem st l hr with rfl | rfl <;> decide

theorem no_invert_dir_lines (st : TState) (i2c : Int)
    (h : st.invert_dir_state = WState.disabled) :
    ∀ l ∈ configOf st i2c, noLeads invertDirHeads l := by
  intro l hl
  rcases configOf_split st i2c l hl with hs | hg | hd | hsp | he | hf | hr
  · exact noLeads_of_subset _ _ _ (by decide) hs
  · rw [cfgGearing_mem st l hg]
    exact noLeads_of_head _ _ _ _ (by decide) (by decide)
  · rw [cfgInvertDir_nil st h] at hd
    simp at hd
  · rcases cfgInvertStep_mem st l hsp with rfl | rfl <;> decide
  · rcases cfgInvertEnable_mem st l he with rfl | rfl <;> decide
  · rcases cfgForward_mem st l hf with rfl | rfl <;> decide
  · rcases cfgReverse_mem st l hr with rfl | rfl <;> decide

theorem no_invert_step_lines (st : TState) (i2c : Int)
    (h : st.invert_step_state = WState.disabled) :
    ∀ l ∈ configOf st i2c, noLeads invertStepHeads l := by
  intro l hl
  rcases configOf_split st i2c l hl with hs | hg | hd | hsp | he | hf | hr
  · exact noLeads_of_subset _ _ _ (by decide) hs
  · rw [cfgGearing_mem st l hg]
    exact noLeads_of_head _ _ _ _ (by decide) (by decide)
  · rcases cfgInvertDir_mem st l hd with rfl | rfl <;> decide
  · rw [cfgInvertStep_nil st h] at hsp
    simp at hsp
  · rcases cfgInvertEnable_mem st l he with rfl | rfl <;> decide
  · rcases cfgForward_mem st l hf with rfl | rfl <;> decide
  · rcases cfgReverse_mem st l hr with rfl | rfl <;> decide

theorem no_invert_enable_lines (st : TState) (i2c : Int)
    (h : st.invert_enable_state = WState.disabled) :
    ∀ l ∈ configOf st i2c, noLeads invertEnableHeads l := by
  intro l hl
  rcases configOf_split st i2c l hl with hs | hg | hd | hsp | he | hf | hr
  · exact noLeads_of_subset _ _ _ (by decide) hs
  · rw [cfgGearing_mem st l hg]
    exact noLeads_of_head _ _ _ _ (by decide) (by decide)
  · rcases cfgInvertDir_mem st l hd with rfl | rfl <;> decide
  · rcases cfgInvertStep_mem st l hsp with rfl | rfl <;> decide
  · rw [cfgInvertEnable_nil st h] at he
    simp at he
  · rcases cfgForward_mem st l hf with rfl | rfl <;> decide
  · rcases cfgReverse_mem st l hr with rfl | rfl <;> decide

theorem no_forward_lines (st : TState) (i2c : Int)
    (h : cfgForward st = []) :
    ∀ l ∈ configOf st i2c, noLeads forwardHeads l := by
  intro l hl
  rcases configOf_split st i2c l hl with hs | hg | hd | hsp | he | hf | hr
  · exact noLeads_of_subset _ _ _ (by decide) hs
  · rw [cfgGearing_mem st l hg]
    exact noLeads_of_head _ _ _ _ (by decide) (by decide)
  · rcases cfgInvertDir_mem st l hd with rfl | rfl <;> decide
  · rcases cfgInvertStep_mem st l hsp with rfl | rfl <;> decide
  · rcases cfgInvertEnable_mem st l he with rfl | rfl <;> decide
  · rw [h] at hf
    simp at hf
  · rcases cfgReverse_mem st l hr with rfl | rfl <;> decide

theorem no_reverse_lines (st : TState) (i2c : Int)
    (h : cfgReverse st = []) :
    ∀ l ∈ configOf st i2c, noLeads reverseHeads l := by
  intro l hl
  rcases configOf_split st i2c l hl with hs | hg | hd | hsp | he | hf | hr
  · exact noLeads_of_subset _ _ _ (by decide) hs
  · rw [cfgGearing_mem st l hg]
    exact noLeads_of_head _ _ _ _ (by decide) (by decide)
  · rcases cfgInvertDir_mem st l hd with rfl | rfl <;> decide
  · rcases cfgInvertStep_mem st l hsp with rfl | rfl <;> decide
  · rcases cfgInvertEnable_mem st l he with rfl | rfl <;> decide
  · rcases cfgForward_mem st l hf with rfl | rfl <;> decide
  · rw [h] at hr
    simp at hr

end EXTurntable

namespace EXTurntable

theorem errorsOf_cases (st : TState) (i2c : Int) (m : String) (hm : m ∈ errorsOf st i2c) :
    m ∈ errI2c i2c ∨ m ∈ errPhase st ∨ m ∈ errStepper st ∨ m ∈ errSpeed st ∨
    m ∈ errAccel st ∨ m ∈ errGearing st ∨ m ∈ errForward st ∨ m ∈ errReverse st ∨
    m ∈ errLedFast st ∨ m ∈ errLedSlow st ∨ m ∈ errSanity st ∨ m ∈ errHomeSens st ∨
    m ∈ errFullStep st ∨ m ∈ errDebounce st := by
  unfold errorsOf at hm
  simp only [List.mem_append, or_assoc] at hm
  exact hm

theorem errI2c_mem (i2c : Int) (m : String) (h : m ∈ errI2c i2c) :
    m = "I²C address must be between 0x8 and 0x77" := by
  unfold errI2c at h
  split at h <;> simp_all

theorem errPhase_mem (st : TState) (m : String) (h : m ∈ errPhase st) :
    m = "Phase switch angle must be between 0 and 180" := by
  unfold errPhase at h
  split at h
  · split at h
    · simp_all
    · split at h <;> simp_all
  · simp at h

theorem errStepper_mem (st : TState) (m : String) (h : m ∈ errStepper st) :
    m = "You must select a stepper driver" := by
  unfold errStepper at h
  split at h <;> simp_all

theorem errSpeed_mem (st : TState) (m : String) (h : m ∈ errSpeed st) :
    m = "You must provide a numeric speed value" ∨ m = "Speed must be between 10 and 20000" := by
  unfold errSpeed at h
  split at h
  · simp_all
  · split at h <;> simp_all

theorem errAccel_mem (st : TState) (m : String) (h : m ∈ errAccel st) :
    m = "You must provide a numeric acceleration value" ∨
    m = "Acceleration must be between 1 and 1000" := by
  unfold errAccel at h
  split at h
  · simp_all
  · split at h <;> simp_all

theorem errGearing_mem (st : TState) (m : String) (h : m ∈ errGearing st) :
    m = "You must provide a numeric gearing factor" ∨
    m = "Gearing factor must be between 1 and 10" := by
  unfold errGearing at h
  split at h
  · split at h
    · simp_all
    · split at h <;> simp_all
  · simp at h

theorem errForward_mem (st : TState) (m : String) (h : m ∈ errForward st) :
    m = "Traverser mode is incompatible with forward only rotation" := by
  unfold errForward at h
  split at h
  · split at h
    · split at h <;> simp_all
    · simp at h
  · simp at h

theorem errReverse_mem (st : TState) (m : String) (h : m ∈ errReverse st) :
    m = "Traverser mode is incompatible with reverse only rotation" := by
  unfold errReverse at h
  split at h
  · split at h
    · split at h <;> simp_all
    · simp at h
  · simp at h

theorem errLedFast_mem (st : TState) (m : String) (h : m ∈ errLedFast st) :
    m = "Fast LED delay must be numeric" := by
  unfold errLedFast at h
  split at h
  · split at h <;> simp_all
  · simp at h

theorem errLedSlow_mem (st : TState) (m : String) (h : m ∈ errLedSlow st) :
    m = "Slow LED delay must be numeric" := by
  unfold errLedSlow at h
  split at h
  · split at h <;> simp_all
  · simp at h

theorem errSanity_mem (st : TState) (m : String) (h : m ∈ errSanity st) :
    m = "Sanity step count must be numeric" := by
  unfold errSanity at h
  split at h
  · split at h <;> simp_all
  · simp at h

theorem errHomeSens_mem (st : TState) (m : String) (h : m ∈ errHomeSens st) :
    m = "Home sensitivity step count must be numeric" := by
  unfold errHomeSens at h
  split at h
  · split at h <;> simp_all
  · simp at h

theorem errFullStep_mem (st : TState) (m : String) (h : m ∈ errFullStep st) :
    m = "Full step count must be numeric" := by
  unfold errFullStep at h
  split at h
  · split at h <;> simp_all
  · simp at h

theorem errDebounce_mem (st : TState) (m : String) (h : m ∈ errDebounce st) :
    m = "Debounce delay must be numeric" := by
  unfold errDebounce at h
  split at h
  · split at h <;> simp_all
  · simp at h

theorem errGearing_nil (st : TState) (h : st.gearing_state = WState.disabled) :
    errGearing st = [] := by
  unfold errGearing
  rw [h]
  rfl

theorem errForward_nil (st : TState) (h : st.forward_only_state = WState.disabled) :
    errForward st = [] := by
  unfold errForward
  rw [h]
  rfl

theorem errReverse_nil (st : TState) (h : st.reverse_only_state = WState.disabled) :
    errReverse st = [] := by
  unfold errReverse
  rw [h]
  rfl

theorem gearing_msg_numeric_not_mem (st : TState) (i2c : Int)
    (h : st.gearing_state = WState.disabled) :
    "You must provide a numeric gearing factor" ∉ errorsOf st i2c := by
  intro hm
  rcases errorsOf_cases st i2c _ hm with q01|q02|q03|q04|q05|q06|q07|q08|q09|q10|q11|q12|q13|q14
  · exact absurd (errI2c_mem i2c _ q01) (by decide)
  · exact absurd (errPhase_mem st _ q02) (by decide)
  · exact absurd (errStepper_mem st _ q03) (by decide)
  · rcases errSpeed_mem st _ q04 with h2 | h2 <;> exact absurd h2 (by decide)
  · rcases errAccel_mem st _ q05 with h2 | h2 <;> exact absurd h2 (by decide)
  · rw [errGearing_nil st h] at q06
    simp at q06
  · exact absurd (errForward_mem st _ q07) (by decide)
  · exact absurd (errReverse_mem st _ q08) (by decide)
  · exact absurd (errLedFast_mem st _ q09) (by decide)
  · exact absurd (errLedSlow_mem st _ q10) (by decide)
  · exact absurd (errSanity_mem st _ q11) (by decide)
  · exact absurd (errHomeSens_mem st _ q12) (by decide)
  · exact absurd (errFullStep_mem st _ q13) (by decide)
  · exact absurd (errDebounce_mem st _ q14) (by decide)

theorem gearing_msg_range_not_mem (st : TState) (i2c : Int)
    (h : st.gearing_state = WState.disabled) :
    "Gearing factor must be between 1 and 10" ∉ errorsOf st i2c := by
  intro hm
  rcases errorsOf_cases st i2c _ hm with q01|q02|q03|q04|q05|q06|q07|q08|q09|q10|q11|q12|q13|q14
  · exact absurd (errI2c_mem i2c _ q01) (by decide)
  · exact absurd (errPhase_mem st _ q02) (by decide)
  · exact absurd (errStepper_mem st _ q03) (by decide)
  · rcases errSpeed_mem st _ q04 with h2 | h2 <;> exact absurd h2 (by decide)
  · rcases errAccel_mem st _ q05 with h2 | h2 <;> exact absurd h2 (by decide)
  · rw [errGearing_nil st h] at q06
    simp at q06
  · exact absurd (errForward_mem st _ q07) (by decide)
  · exact absurd (errReverse_mem st _ q08) (by decide)
  · exact absurd (errLedFast_mem st _ q09) (by decide)
  · exact absurd (errLedSlow_mem st _ q10) (by decide)
  · exact absurd (errSanity_mem st _ q11) (by decide)
  · exact absurd (errHomeSens_mem st _ q12) (by decide)
  · exact absurd (errFullStep_mem st _ q13) (by decide)
  · exact absurd (errDebounce_mem st _ q14) (by decide)

theorem forward_msg_not_mem (st : TState) (i2c : Int)
    (h : st.forward_only_state = WState.disabled) :
    "Traverser mode is incompatible with forward only rotation" ∉ errorsOf st i2c := by
  intro hm
  rcases errorsOf_cases st i2c _ hm with q01|q02|q03|q04|q05|q06|q07|q08|q09|q10|q11|q12|q13|q14
  · exact absurd (errI2c_mem i2c _ q01) (by decide)
  · exact absurd (errPhase_mem st _ q02) (by decide)
  · exact absurd (errStepper_mem st _ q03) (by decide)
  · rcases errSpeed_mem st _ q04 with h2 | h2 <;> exact absurd h2 (by decide)
  · rcases errAccel_mem st _ q05 with h2 | h2 <;> exact absurd h2 (by decide)
  · rcases errGearing_mem st _ q06 with h2 | h2 <;> exact absurd h2 (by decide)
  · rw [errForward_nil st h] at q07
    simp at q07
  · exact absurd (errReverse_mem st _ q08) (by decide)
  · exact absurd (errLedFast_mem st _ q09) (by decide)
  · exact absurd (errLedSlow_mem st _ q10) (by decide)
  · exact absurd (errSanity_mem st _ q11) (by decide)
  · exact absurd (errHomeSens_mem st _ q12) (by decide)
  · exact absurd (errFullStep_mem st _ q13) (by decide)
  · exact absurd (errDebounce_mem st _ q14) (by decide)

theorem reverse_msg_not_mem (st : TState) (i2c : Int)
    (h : st.reverse_only_state = WState.disabled) :
    "Traverser mode is incompatible with reverse only rotation" ∉ errorsOf st i2c := by
  intro hm
  rcases errorsOf_cases st i2c _ hm with q01|q02|q03|q04|q05|q06|q07|q08|q09|q10|q11|q12|q13|q14
  · exact absurd (errI2c_mem i2c _ q01) (by decide)
  · exact absurd (errPhase_mem st _ q02) (by decide)
  · exact absurd (errStepper_mem st _ q03) (by decide)
  · rcases errSpeed_mem st _ q04 with h2 | h2 <;> exact absurd h2 (by decide)
  · rcases errAccel_mem st _ q05 with h2 | h2 <;> exact absurd h2 (by decide)
  · rcases errGearing_mem st _ q06 with h2 | h2 <;> exact absurd h2 (by decide)
  · exact absurd (errForward_mem st _ q07) (by decide)
  · rw [errReverse_nil st h] at q08
    simp at q08
  · exact absurd (errLedFast_mem st _ q09) (by decide)
  · exact absurd (errLedSlow_mem st _ q10) (by decide)
  · exact absurd (errSanity_mem st _ q11) (by decide)
  · exact absurd (errHomeSens_mem st _ q12) (by decide)
  · exact absurd (errFullStep_mem st _ q13) (by decide)
  · exact absurd (errDebounce_mem st _ q14) (by decide)

end EXTurntable

namespace EXTurntable

theorem errI2c_length (i2c : Int) :
    (errI2c i2c).length = (decide (i2c < 8 ∨ i2c > 77)).toNat := by
  unfold errI2c
  split <;> simp [*]

theorem i2cInvalid_eq (st : TState) (v : Int) (h : pyInt st.i2c_address = some v) :
    i2cInvalid st = decide (v < 8 ∨ v > 77) := by
  unfold i2cInvalid
  rw [h]

theorem errPhase_length (st : TState) : (errPhase st).length = (phaseInvalid st).toNat := by
  unfold errPhase phaseInvalid
  cases hb : st.auto_switch <;> simp [hb]
  rcases hp : pyInt st.phase_angle with _ | v <;> simp [hp]
  split
  · rename_i hc
    rcases hc with h | h <;> simp [h]
  · rename_i hc
    rw [not_or] at hc
    simp [hc.1, hc.2]

theorem errStepper_length (st : TState) :
    (errStepper st).length = (stepperInvalid st).toNat := by
  unfold errStepper stepperInvalid
  split <;> simp [*]

theorem errSpeed_length (st : TState) : (errSpeed st).length = (speedInvalid st).toNat := by
  unfold errSpeed speedInvalid
  rcases hp : pyInt st.speed with _ | v <;> simp [hp]
  split
  · rename_i hc
    rcases hc with h | h <;> simp [h]
  · rename_i hc
    rw [not_or] at hc
    simp [hc.1, hc.2]

theorem errAccel_length (st : TState) : (errAccel st).length = (accelInvalid st).toNat := by
  unfold errAccel accelInvalid
  rcases hp : pyInt st.accel with _ | v <;> simp [hp]
  split
  · rename_i hc
    rcases hc with h | h <;> simp [h]
  · rename_i hc
    rw [not_or] at hc
    simp [hc.1, hc.2]

theorem errGearing_length (st : TState) :
    (errGearing st).length = (gearingInvalid st).toNat := by
  unfold errGearing gearingInvalid
  by_cases hg : st.gearing_state = WState.normal <;> simp [hg]
  rcases hp : pyInt st.gearing with _ | v <;> simp [hp]
  split
  · rename_i hc
    rcases hc with h | h <;> simp [h]
  · rename_i hc
    rw [not_or] at hc
    simp [hc.1, hc.2]

theorem errForward_length (st : TState) :
    (errForward st).length = (forwardInvalid st).toNat := by
  unfold errForward forwardInvalid
  by_cases hg : st.forward_only_state = WState.normal <;> simp [hg]
  cases hf : st.forward_only_switch <;> simp [hf]
  cases hm : st.mode_switch <;> simp [hm]

theorem errReverse_length (st : TState) :
    (errReverse st).length = (reverseInvalid st).toNat := by
  unfold errReverse reverseInvalid
  by_cases hg : st.reverse_only_state = WState.normal <;> simp [hg]
  cases hf : st.reverse_only_switch <;> simp [hf]
  cases hm : st.mode_switch <;> simp [hm]

theorem errLedFast_length (st : TState) :
    (errLedFast st).length = (ledFastInvalid st).toNat := by
  unfold errLedFast ledFastInvalid
  cases hb : st.led_fast_switch <;> simp [hb]
  rcases hp : pyInt st.led_fast with _ | v <;> simp [hp]

theorem errLedSlow_length (st : TState) :
    (errLedSlow st).length = (ledSlowInvalid st).toNat := by
  unfold errLedSlow ledSlowInvalid
  cases hb : st.led_slow_switch <;> simp [hb]
  rcases hp : pyInt st.led_slow with _ | v <;> simp [hp]

theorem errSanity_length (st : TState) :
    (errSanity st).length = (sanityInvalid st).toNat := by
  unfold errSanity sanityInvalid
  cases hb : st.sanity_steps_switch <;> simp [hb]
  rcases hp : pyInt st.sanity_steps with _ | v <;> simp [hp]

theorem errHomeSens_length (st : TState) :
    (errHomeSens st).length = (homeSensInvalid st).toNat := by
  unfold errHomeSens homeSensInvalid
  cases hb : st.home_sensitivity_switch <;> simp [hb]
  rcases hp : pyInt st.home_sensitivity with _ | v <;> simp [hp]

theorem errFullStep_length (st : TState) :
    (errFullStep st).length = (fullStepInvalid st).toNat := by
  unfold errFullStep fullStepInvalid
  cases hb : st.full_step_count_switch <;> simp [hb]
  rcases hp : pyInt st.full_step_count with _ | v <;> simp [hp]

theorem errDebounce_length (st : TState) :
    (errDebounce st).length = (debounceInvalid st).toNat := by
  unfold errDebounce debounceInvalid
  cases hb : st.debounce_delay_switch <;> simp [hb]
  rcases hp : pyInt st.debounce_delay with _ | v <;> simp [hp]

theorem err_nil_of_not_invalid (l : List String) (b : Bool)
    (hlen : l.length = b.toNat) (hb : b = false) : l = [] := by
  subst hb
  exact List.length_eq_zero.mp hlen

theorem generate_config_written_iff (st : TState) (r : GenResult)
    (hr : generate_config st = some r) : r.written = none ↔ r.param_errors ≠ [] := by
  unfold generate_config at hr
  rcases hpy : pyInt st.i2c_address with _ | v
  · rw [hpy] at hr
    exact absurd hr (by simp)
  · rw [hpy] at hr
    simp only [Option.some.injEq] at hr
    subst hr
    by_cases he : errorsOf st v = []
    · simp [he]
    · simp [he, List.length_pos.mpr he]

end EXTurntable

namespace EXTurntable

/-- C1 counterexample: after the v0.5.0 version gate disabled the gearing
entry and the invert/rotate switches, a run of `generate_config` places no
error for them (as the claim says) but also emits NO directive for them at
all — the output contains neither the fixed default nor a commented-out
gearing or invert-direction directive, contradicting the claim that the
fixed default/commented directive always appears. -/
theorem gate_off_commented_default_counterexample :
    set_product_version validBase (some "v0.5.0-Prod") (some 0) (some 5) (some 0) = some c1St ∧
    c1St.gearing_state = WState.disabled ∧
    c1St.invert_dir_state = WState.disabled ∧
    generate_config c1St = some c1Res ∧
    c1Res.param_errors = [] ∧
    c1Res.config_list.all (fun l => decide (noLeads gearingHeads l)) = true ∧
    c1Res.config_list.all (fun l => decide (noLeads invertDirHeads l)) = true := by
  decide

/-- C1 (amended): a version-gated parameter whose widget is disabled at
emission time is excluded from validation (none of its error messages can
appear in the error list) and no directive for it — active or commented —
appears anywhere in the emitted directive list; the parameter is omitted
entirely rather than emitted as a fixed default. -/
theorem gate_off_excluded_and_omitted (st : TState) (r : GenResult)
    (hr : generate_config st = some r) :
    (st.gearing_state = WState.disabled →
      "You must provide a numeric gearing factor" ∉ r.param_errors ∧
      "Gearing factor must be between 1 and 10" ∉ r.param_errors ∧
      ∀ l ∈ r.config_list, noLeads gearingHeads l) ∧
    (st.invert_dir_state = WState.disabled → ∀ l ∈ r.config_list, noLeads invertDirHeads l) ∧
    (st.invert_step_state = WState.disabled → ∀ l ∈ r.config_list, noLeads invertStepHeads l) ∧
    (st.invert_enable_state = WState.disabled → ∀ l ∈ r.config_list, noLeads invertEnableHeads l) ∧
    (st.forward_only_state = WState.disabled →
      "Traverser mode is incompatible with forward only rotation" ∉ r.param_errors ∧
      ∀ l ∈ r.config_list, noLeads forwardHeads l) ∧
    (st.reverse_only_state = WState.disabled →
      "Traverser mode is incompatible with reverse only rotation" ∉ r.param_errors ∧
      ∀ l ∈ r.config_list, noLeads reverseHeads l) := by
  unfold generate_config at hr
  rcases hpy : pyInt st.i2c_address with _ | v
  · rw [hpy] at hr
    exact absurd hr (by simp)
  · rw [hpy] at hr
    simp only [Option.some.injEq] at hr
    subst hr
    refine ⟨fun h => ⟨?_, ?_, ?_⟩, fun h => ?_, fun h => ?_, fun h => ?_,
            fun h => ⟨?_, ?_⟩, fun h => ⟨?_, ?_⟩⟩
    · exact gearing_msg_numeric_not_mem st v h
    · exact gearing_msg_range_not_mem st v h
    · exact no_gearing_lines st v h
    · exact no_invert_dir_lines st v h
    · exact no_invert_step_lines st v h
    · exact no_invert_enable_lines st v h
    · exact forward_msg_not_mem st v h
    · exact no_forward_lines st v (cfgForward_nil st h)
    · exact reverse_msg_not_mem st v h
    · exact no_reverse_lines st v (cfgReverse_nil st h)

/-- C1 witness: the amended theorem applied at the concrete post-v0.5.0
state. -/
theorem gate_off_excluded_and_omitted_witness :
    "You must provide a numeric gearing factor" ∉ c1Res.param_errors :=
  ((gate_off_excluded_and_omitted c1St c1Res (by rfl)).1 (by rfl)).1

end EXTurntable

namespace EXTurntable

/-- C2 counterexample: a state whose single invalid parameter is a
non-numeric I2C address makes the run raise (modelled as `none`) instead of
producing a one-entry error list, so the claim fails as stated for inputs
whose I2C address does not coerce. -/
theorem error_aggregation_counterexample :
    invalidCount c2Bad = 1 ∧ generate_config c2Bad = none := by
  decide

/-- C2 (amended): whenever a `generate_config` run completes (equivalently,
whenever the I2C address raw value coerces to an integer — a non-numeric one
raises instead), the error list has exactly one entry per failing parameter
check, all checks are visited, and the artifact write happens exactly when
the error list is empty — emission and a non-empty error list never occur
together. -/
theorem error_aggregation (st : TState) (r : GenResult)
    (hr : generate_config st = some r) :
    r.param_errors.length = invalidCount st ∧
    (r.written = none ↔ r.param_errors ≠ []) := by
  refine ⟨?_, generate_config_written_iff st r hr⟩
  unfold generate_config at hr
  rcases hpy : pyInt st.i2c_address with _ | v
  · rw [hpy] at hr
    exact absurd hr (by simp)
  · rw [hpy] at hr
    simp only [Option.some.injEq] at hr
    subst hr
    show (errorsOf st v).length = invalidCount st
    unfold errorsOf invalidCount
    simp only [List.length_append]
    rw [errI2c_length, errPhase_length, errStepper_length, errSpeed_length, errAccel_length,
        errGearing_length, errForward_length, errReverse_length, errLedFast_length,
        errLedSlow_length, errSanity_length, errHomeSens_length, errFullStep_length,
        errDebounce_length, i2cInvalid_eq st v hpy]

/-- C2 witness: the amended theorem applied at a concrete state with two
independently invalid parameters. -/
theorem error_aggregation_witness :
    c2WRes.param_errors.length = invalidCount c2W ∧
    (c2WRes.written = none ↔ c2WRes.param_errors ≠ []) :=
  error_aggregation c2W c2WRes (by rfl)

/-- C4: the I2C address coercion on line 770 is unguarded, so a raw value
whose coercion fails makes `generate_config` raise `ValueError` (modelled as
`none`) instead of appending an error and visiting the remaining
parameters — contradicting the function's own docstring ("Any invalid
parameters will prevent continuing and flag as errors"). -/
theorem i2c_nonnumeric_raises :
    c4Bad.i2c_address = "abc" ∧ pyInt c4Bad.i2c_address = none ∧
    generate_config c4Bad = none := by
  decide

/-- C5: on version v0.6.1-Prod with the scenario parameters (I2C 60, mode
TURNTABLE, home/limit/relay LOW, automatic phase switching at 45, stepper
selected, speed 200, acceleration 25), the run yields zero errors, emits the
I2C, mode and gearing directives (gearing editable at 0.6.1), contains no
INVERT_* or ROTATE_* directive in any spelling (gated off below 0.7.0), and
hands the artifact to the writer. -/
theorem scenario_v061_prod :
    set_product_version validBase (some "v0.6.1-Prod") (some 0) (some 6) (some 1) = some c5St ∧
    generate_config c5St = some c5Res ∧
    c5Res.param_errors = [] ∧
    "#define I2C_ADDRESS 0x60\n" ∈ c5Res.config_list ∧
    "#define TURNTABLE_EX_MODE TURNTABLE\n" ∈ c5Res.config_list ∧
    "#define STEPPER_GEARING_FACTOR 1\n" ∈ c5Res.config_list ∧
    c5Res.config_list.all (fun l => decide (noLeads invRotHeads l)) = true ∧
    c5Res.written.isSome = true := by
  decide

/-- C6: with mode TRAVERSER, the forward-only switch selected and its widget
enabled, one run collects the cross-field error "Traverser mode is
incompatible with forward only rotation" and no ROTATE_FORWARD_ONLY
directive (active or commented) is emitted. -/
theorem traverser_forward_only_conflict (st : TState) (r : GenResult)
    (hr : generate_config st = some r)
    (hmode : st.mode_switch = true) (hsw : st.forward_only_switch = true)
    (hst : st.forward_only_state = WState.normal) :
    "Traverser mode is incompatible with forward only rotation" ∈ r.param_errors ∧
    ∀ l ∈ r.config_list, noLeads forwardHeads l := by
  unfold generate_config at hr
  rcases hpy : pyInt st.i2c_address with _ | v
  · rw [hpy] at hr
    exact absurd hr (by simp)
  · rw [hpy] at hr
    simp only [Option.some.injEq] at hr
    subst hr
    have hfwd : errForward st = ["Traverser mode is incompatible with forward only rotation"] := by
      simp [errForward, hst, hsw, hmode]
    constructor
    · show _ ∈ errorsOf st v
      unfold errorsOf
      simp [List.mem_append, hfwd]
    · refine no_forward_lines st v ?_
      simp [cfgForward, hst, hsw, hmode]

/-- C6 witness: the theorem applied at the concrete traverser/forward-only
state. -/
theorem traverser_forward_only_conflict_witness :
    "Traverser mode is incompatible with forward only rotation" ∈ c6Res.param_errors :=
  (traverser_forward_only_conflict c6St c6Res (by rfl) (by rfl) (by rfl) (by rfl)).1

end EXTurntable

namespace EXTurntable

/-- C7 counterexample: at I2C address 5 with all other parameters valid the
run produces exactly one error and no write, but the message is
"I²C address must be between 0x8 and 0x77" (with a superscript two), not the
plain-ASCII string "I2C address must be between 0x8 and 0x77" that the claim
quotes. -/
theorem i2c_low_message_counterexample :
    generate_config c7St = some c7Res ∧
    c7Res.param_errors.length = 1 ∧
    c7Res.written = none ∧
    c7Res.param_errors ≠ ["I2C address must be between 0x8 and 0x77"] := by
  decide

/-- C7 (amended): for any state with I2C address "5" on which every other
parameter check passes, the run produces exactly the single error
"I²C address must be between 0x8 and 0x77" (superscript two as in the
source) and no artifact write occurs. -/
theorem i2c_out_of_range_single_error (st : TState) (r : GenResult)
    (hr : generate_config st = some r)
    (h5 : st.i2c_address = "5")
    (hph : phaseInvalid st = false) (hsx : stepperInvalid st = false)
    (hsp : speedInvalid st = false) (hac : accelInvalid st = false)
    (hge : gearingInvalid st = false) (hfw : forwardInvalid st = false)
    (hrv : reverseInvalid st = false) (hlf : ledFastInvalid st = false)
    (hls : ledSlowInvalid st = false) (hsa : sanityInvalid st = false)
    (hhs : homeSensInvalid st = false) (hfs : fullStepInvalid st = false)
    (hdb : debounceInvalid st = false) :
    r.param_errors = ["I²C address must be between 0x8 and 0x77"] ∧ r.written = none := by
  have hpy : pyInt st.i2c_address = some 5 := by
    rw [h5]
    decide
  have hr2 := hr
  unfold generate_config at hr
  rw [hpy] at hr
  simp only [Option.some.injEq] at hr
  subst hr
  have hE : errorsOf st 5 = ["I²C address must be between 0x8 and 0x77"] := by
    unfold errorsOf
    rw [err_nil_of_not_invalid _ _ (errPhase_length st) hph,
        err_nil_of_not_invalid _ _ (errStepper_length st) hsx,
        err_nil_of_not_invalid _ _ (errSpeed_length st) hsp,
        err_nil_of_not_invalid _ _ (errAccel_length st) hac,
        err_nil_of_not_invalid _ _ (errGearing_length st) hge,
        err_nil_of_not_invalid _ _ (errForward_length st) hfw,
        err_nil_of_not_invalid _ _ (errReverse_length st) hrv,
        err_nil_of_not_invalid _ _ (errLedFast_length st) hlf,
        err_nil_of_not_invalid _ _ (errLedSlow_length st) hls,
        err_nil_of_not_invalid _ _ (errSanity_length st) hsa,
        err_nil_of_not_invalid _ _ (errHomeSens_length st) hhs,
        err_nil_of_not_invalid _ _ (errFullStep_length st) hfs,
        err_nil_of_not_invalid _ _ (errDebounce_length st) hdb]
    rfl
  have hne : errorsOf st 5 ≠ [] := by
    rw [hE]
    decide
  exact ⟨hE, (generate_config_written_iff st _ hr2).mpr hne⟩

/-- C7 witness: the amended theorem applied at the concrete state with I2C
address 5 and all other parameters valid. -/
theorem i2c_out_of_range_single_error_witness :
    c7Res.param_errors = ["I²C address must be between 0x8 and 0x77"] ∧ c7Res.written = none :=
  i2c_out_of_range_single_error c7St c7Res (by rfl) (by rfl) (by rfl) (by rfl) (by rfl)
    (by rfl) (by rfl) (by rfl) (by rfl) (by rfl) (by rfl) (by rfl) (by rfl) (by rfl) (by rfl)

/-- C10: when `set_product_version` is called with major, minor and patch all
absent while the stored version numbers are still their `None` defaults, the
`product_major_version == 0` tests are false (Python `None == 0` is `False`),
so both version gates take their enabling branch: every version-gated widget
is left in the `normal` (editable) state — gating defaults to the most
permissive behaviour. -/
theorem unknown_version_most_permissive (st : TState) (version : Option String)
    (h1 : st.product_major_version = none) (h2 : st.product_minor_version = none)
    (h3 : st.product_patch_version = none) :
    (set_product_version st version none none none).map
      (fun s => (s.gearing_state, s.invert_dir_state, s.invert_step_state,
                 s.invert_enable_state, s.forward_only_state, s.reverse_only_state)) =
    some (WState.normal, WState.normal, WState.normal,
          WState.normal, WState.normal, WState.normal) := by
  unfold set_product_version
  simp [h1]

/-- C10 witness: the theorem applied at the fixture state whose stored
version numbers are all absent. -/
theorem unknown_version_most_permissive_witness :
    (set_product_version validBase (some "unknown") none none none).map
      (fun s => (s.gearing_state, s.invert_dir_state, s.invert_step_state,
                 s.invert_enable_state, s.forward_only_state, s.reverse_only_state)) =
    some (WState.normal, WState.normal, WState.normal,
          WState.normal, WState.normal, WState.normal) :=
  unknown_version_most_permissive validBase (some "unknown") rfl rfl rfl

end EXTurntable

namespace EXInstaller

theorem getFrame_setFrame (fs : List (String × VFrame)) (id : String) (g : VFrame) :
    getFrame (setFrame fs id g) id = some g := by
  induction fs with
  | nil => simp [setFrame, getFrame]
  | cons e rest ih =>
    by_cases h : e.fst = id
    · simp [setFrame, h, getFrame]
    · simp only [setFrame, if_neg h]
      unfold getFrame
      rw [List.find?_cons_of_neg _ (by simpa using h)]
      exact ih

theorem getFrame_setFrame_ne (fs : List (String × VFrame)) (id : String) (g : VFrame)
    (id2 : String) (hne : id2 ≠ id) :
    getFrame (setFrame fs id g) id2 = getFrame fs id2 := by
  induction fs with
  | nil =>
    simp [setFrame, getFrame, List.find?, Ne.symm hne]
  | cons e rest ih =>
    by_cases h : e.fst = id
    · unfold setFrame getFrame
      rw [if_pos h]
      rw [List.find?_cons_of_neg _ (by simpa using Ne.symm hne),
          List.find?_cons_of_neg _ (by simp [h, Ne.symm hne])]
    · unfold setFrame
      rw [if_neg h]
      by_cases h2 : e.fst = id2
      · unfold getFrame
        rw [List.find?_cons_of_pos _ (by simpa using h2),
            List.find?_cons_of_pos _ (by simpa using h2)]
      · unfold getFrame
        rw [List.find?_cons_of_neg _ (by simpa using h2),
            List.find?_cons_of_neg _ (by simpa using h2)]
        exact ih

theorem registered_after_set (fs : List (String × VFrame)) (id : String) (g : VFrame)
    (hreg : ∀ id2, (getFrame fs id2).isSome = true → (viewsLookup id2).isSome = true)
    (hid : (viewsLookup id).isSome = true) :
    ∀ id2, (getFrame (setFrame fs id g) id2).isSome = true → (viewsLookup id2).isSome = true := by
  intro id2 h2
  by_cases heq : id2 = id
  · subst heq
    exact hid
  · rw [getFrame_setFrame_ne fs id g id2 heq] at h2
    exact hreg id2 h2

theorem framesRegistered_initial : framesRegistered initialState := by
  intro id h
  simp [initialState, getFrame, List.find?] at h

theorem framesRegistered_preserved (st : AppState) (id : String) (p v : Option String)
    (st' : AppState) (hreg : framesRegistered st) (h : switch_view st id p v = .ok st') :
    framesRegistered st' := by
  unfold switch_view at h
  by_cases hne : id = ""
  · rw [if_pos hne] at h
    simp only [Except.ok.injEq] at h
    subst h
    exact hreg
  · rw [if_neg hne] at h
    rcases hc : getFrame st.frames id with _ | f
    · rw [hc] at h
      rcases hl : viewsLookup id with _ | entry <;> rw [hl] at h
      · simp at h
      · have hsome : (viewsLookup id).isSome = true := by rw [hl]; rfl
        iterate 8 ((all_goals try dsimp only at h); all_goals try split at h)
        all_goals
          first
            | (simp only [Except.ok.injEq] at h
               subst h
               exact registered_after_set st.frames id _ hreg hsome)
            | contradiction
    · rw [hc] at h
      have hsome : (viewsLookup id).isSome = true := hreg id (by rw [hc]; rfl)
      iterate 8 ((all_goals try dsimp only at h); all_goals try split at h)
      all_goals
        first
          | (simp only [Except.ok.injEq] at h
             subst h
             exact registered_after_set st.frames id _ hreg hsome)
          | contradiction

end EXInstaller

namespace EXInstaller

/-- C3 counterexample: `compile_upload` is cached with instance id 0 and the
previously active view carries the same product as the request, yet a second
`switch_view("compile_upload", ...)` with that unchanged product destroys the
cached instance and activates a freshly constructed one (instance id 1, and
the construction counter advances) — the claimed reuse does not happen. -/
theorem compile_upload_recreated_counterexample :
    (getFrame navCU1.frames "compile_upload").map (fun g => g.iid) = some 0 ∧
    callingProduct navCU1 = some "ex_commandstation" ∧
    (switch_view navCU1 "compile_upload" (some "ex_commandstation") none).map
      (fun s => s.view.map (fun g => g.iid)) = .ok (some 1) ∧
    (switch_view navCU1 "compile_upload" (some "ex_commandstation") none).map
      (fun s => s.nextId) = .ok 2 :=
  ⟨rfl, rfl, rfl, rfl⟩

/-- C3 (amended): for every cached state other than `compile_upload`, and for
`select_version_config` only when the requested product equals the product of
the previously active view, `switch_view` reuses the cached instance: the
construction counter does not advance, the activated view is the cached
instance (same instance id), and the cache still holds that same instance.
`compile_upload` alone is excluded: it is destroyed and reconstructed on
every revisit, even with an unchanged product. -/
theorem cached_state_reused (st : AppState) (id : String) (f : VFrame)
    (product version : Option String)
    (hne : id ≠ "") (hf : getFrame st.frames id = some f)
    (hcu : id ≠ "compile_upload")
    (hsv : id = "select_version_config" → product = callingProduct st) :
    (switch_view st id product version).map (fun s => s.nextId) = .ok st.nextId ∧
    (switch_view st id product version).map (fun s => s.view.map (fun g => g.iid)) =
      .ok (some f.iid) ∧
    (switch_view st id product version).map
      (fun s => (getFrame s.frames id).map (fun g => g.iid)) = .ok (some f.iid) := by
  have hcond : ¬(id = "compile_upload" ∨
      (id = "select_version_config" ∧ product ≠ callingProduct st)) := by
    rintro (hq | ⟨hq1, hq2⟩)
    · exact hcu hq
    · exact hq2 (hsv hq1)
  have hgiid : (reuseFrame id f product version).iid = f.iid := by
    unfold reuseFrame
    dsimp only
    split <;> split <;> rfl
  have key : switch_view st id product version =
      .ok { frames := setFrame st.frames id (reuseFrame id f product version),
            view := some (reuseFrame id f product version), nextId := st.nextId } := by
    unfold switch_view
    rw [if_neg hne, hf]
    dsimp only
    rw [if_neg hcond]
    rfl
  refine ⟨?_, ?_, ?_⟩
  · rw [key]
    rfl
  · rw [key]
    show Except.ok (some (reuseFrame id f product version).iid) = Except.ok (some f.iid)
    rw [hgiid]
  · rw [key]
    show Except.ok
        ((getFrame (setFrame st.frames id (reuseFrame id f product version)) id).map
          (fun x => x.iid)) = Except.ok (some f.iid)
    rw [getFrame_setFrame]
    show Except.ok (some (reuseFrame id f product version).iid) = Except.ok (some f.iid)
    rw [hgiid]

/-- C3 witness: the amended theorem applied to the cached welcome view with
an unchanged (absent) product. -/
theorem cached_state_reused_witness :
    (switch_view navW "welcome" none none).map (fun s => s.nextId) = .ok navW.nextId ∧
    (switch_view navW "welcome" none none).map (fun s => s.view.map (fun g => g.iid)) =
      .ok (some welcomeFrame.iid) ∧
    (switch_view navW "welcome" none none).map
      (fun s => (getFrame s.frames "welcome").map (fun g => g.iid)) =
      .ok (some welcomeFrame.iid) :=
  cached_state_reused navW "welcome" welcomeFrame none none (by decide) (by rfl)
    (by decide) (fun hq => absurd hq (by decide))

end EXInstaller

namespace EXInstaller

/-- C8: requesting a state id that is not a key of the `self.views` registry
makes `switch_view` raise the `KeyError` from `self.views[view_class]`
(line 169), modelled as the fatal `NavError.unknownView`.  The raise happens
before any assignment to `self.view` or `self.frames`, so no state switch
occurs, and nothing catches it inside `switch_view`: it propagates to the
root window's callback exception handler (`exception_handler`), never
becoming a user-facing validation message.  The hypothesis `framesRegistered`
holds for every reachable window state (`framesRegistered_initial`,
`framesRegistered_preserved`). -/
theorem unknown_view_fatal (st : AppState) (id : String) (product version : Option String)
    (hne : id ≠ "") (hreg : framesRegistered st) (hlook : viewsLookup id = none) :
    switch_view st id product version = .error (.unknownView id) := by
  have hcache : getFrame st.frames id = none := by
    rcases hc : getFrame st.frames id with _ | f
    · rfl
    · have hs := hreg id (by rw [hc]; rfl)
      rw [hlook] at hs
      simp at hs
  unfold switch_view
  rw [if_neg hne, hcache, hlook]

/-- C8 witness: the theorem applied to the id `"advanced_config"`, which the
EX-Turntable flow requests but which is absent from the registry. -/
theorem unknown_view_fatal_witness :
    switch_view initialState "advanced_config" none none =
      .error (.unknownView "advanced_config") :=
  unknown_view_fatal initialState "advanced_config" none none (by decide)
    framesRegistered_initial (by rfl)

/-- C9: whenever `switch_view` constructs a new state instance — fresh
(uncached id) or recreated (`compile_upload`, or `select_version_config` with
a changed product) — whose class exposes `set_product_version`, while the
`version` argument is absent, the call raises `UnboundLocalError`:
`version_details` is assigned only under `if version:` (lines 140-141) but
read unconditionally at the injection sites (lines 158, 174).  The transition
does not complete with an unknown-version sentinel. -/
theorem version_absent_unbound_local (st : AppState) (id : String)
    (product : Option String) (entry : ViewEntry)
    (hne : id ≠ "") (hl : viewsLookup id = some entry)
    (hhook : entry.has_version_hook = true)
    (hbranch : getFrame st.frames id = none ∨ id = "compile_upload" ∨
               (id = "select_version_config" ∧ product ≠ callingProduct st)) :
    switch_view st id product none = .error .unboundVersionDetails := by
  unfold switch_view
  rw [if_neg hne]
  rcases hc : getFrame st.frames id with _ | f
  · dsimp only
    rw [hl]
    dsimp only
    by_cases hio : (id = "compile_upload" ∨ id = "select_version_config")
    · rw [if_pos hio]
      dsimp only
      rw [if_pos hhook]
    · rw [if_neg hio]
      dsimp only
      rw [if_pos hhook]
  · have hcond : id = "compile_upload" ∨
        (id = "select_version_config" ∧ product ≠ callingProduct st) := by
      rcases hbranch with hb | hb
      · rw [hc] at hb
        exact absurd hb (by simp)
      · exact hb
    dsimp only
    rw [if_pos hcond, hl]
    dsimp only
    rw [if_pos hhook]

/-- C9 witness: the theorem applied to the fresh construction of
`ex_commandstation` (the registry's only version-aware view) without a
version argument. -/
theorem version_absent_unbound_local_witness :
    switch_view initialState "ex_commandstation" none none =
      .error .unboundVersionDetails :=
  version_absent_unbound_local initialState "ex_commandstation" none
    { initProduct := some "ex_commandstation", has_version_hook := true }
    (by decide) (by rfl) (by rfl) (Or.inl (by rfl))

end EXInstaller
